import Mathlib

/-!
Shallow embedding, in Lean 4, of the core logic of the Spanish-learning
single-page app (`src/app.py`): the spaced-repetition review scheduler
(vocabulary, grammar, and per-error-tag queues), the mistake ledger, the
heuristic substring matcher, the constraint checker, and the domain-exposure
tracker.  Python dicts are modelled as association lists in insertion order,
Python ints as `Nat`/`Int`, Python floats (only used for shares and the
cosmetic confidence value) as `ℚ`.  Operations that can raise (`KeyError`,
`IndexError`) return `Option`.
-/

namespace SpanishApp

/-- First-match lookup in an insertion-ordered association list: `d[k]`
(`none` models a `KeyError` / `d.get(k)` miss). -/
def alookup {β : Type} : List (String × β) → String → Option β
  | [], _ => none
  | (k, v) :: rest, key => if k = key then some v else alookup rest key

/-- Apply `f` to the value stored at `key` (first occurrence), leaving the
list otherwise unchanged: in-place mutation of `d[key]`. -/
def amodify {β : Type} (f : β → β) : List (String × β) → String → List (String × β)
  | [], _ => []
  | (k, v) :: rest, key =>
    if k = key then (k, f v) :: rest else (k, v) :: amodify f rest key

/-- Python `d[key] = v`: overwrite in place when present, append when absent. -/
def aset {β : Type} (l : List (String × β)) (key : String) (v : β) :
    List (String × β) :=
  match alookup l key with
  | some _ => amodify (fun _ => v) l key
  | none => l ++ [(key, v)]

/-- Python `d.setdefault(key, dflt)` followed by an in-place update `f` of the
stored value (used for `d.setdefault(tag, []).append(x)` and
`d[key] = d.get(key, 0) + 1`). -/
def aupsert {β : Type} (l : List (String × β)) (key : String) (dflt : β)
    (f : β → β) : List (String × β) :=
  match alookup l key with
  | some _ => amodify f l key
  | none => l ++ [(key, f dflt)]

/-- Python `pat in s` on strings: contiguous-substring membership. -/
def strHasSubstr (s pat : String) : Bool :=
  decide (pat.data <:+: s.data)

/-- Python `str.lower()` restricted to the characters the app's data uses:
ASCII lowering plus the Spanish uppercase accented letters. -/
def pyCharLower (c : Char) : Char :=
  if c = 'Á' then 'á' else if c = 'É' then 'é' else if c = 'Í' then 'í'
  else if c = 'Ó' then 'ó' else if c = 'Ú' then 'ú' else if c = 'Ñ' then 'ñ'
  else if c = 'Ü' then 'ü' else c.toLower

/-- Python `s.lower()` (written on the underlying character list so that it
reduces inside the kernel). -/
def pyLower (s : String) : String := ⟨s.data.map pyCharLower⟩

/-! ### Data model (§3 of the spec, `src/app.py`) -/

/-- One entry of `st.session_state.review_queue` (vocabulary queue),
as built by `add_review_items` (`src/app.py:2050`). -/
structure ReviewItem where
  term : String
  meaning : String
  exampleText : String
  domain : Option String
  register : Option String
  pos : Option String
  streak : Nat
  nextDue : Nat
  deriving Repr, DecidableEq

/-- One entry of `st.session_state.grammar_review_queue`
(`add_grammar_review_item`, `src/app.py:2123`). -/
structure GrammarItem where
  focus : String
  explanation : String
  exampleText : String
  streak : Nat
  nextDue : Nat
  deriving Repr, DecidableEq

/-- Aggregate per-pattern record of `st.session_state.mistake_log`. -/
structure MistakeStats where
  correction : String
  count : Nat
  deriving Repr, DecidableEq

/-- A detailed notebook entry built by `log_mistake` (`src/app.py:2093`).
The pseudo-random confidence and today's date enter as parameters. -/
structure ErrorEntry where
  date : String
  pattern : String
  correction : String
  tag : String
  confidence : ℚ
  userText : Option String
  correctedText : Option String
  deriving Repr, DecidableEq

/-- An entry of a per-tag error review queue: the notebook entry merged with
the scheduling fields (`add_error_review_item`, `src/app.py:2069`). -/
structure ErrorReviewItem where
  entry : ErrorEntry
  streak : Nat
  nextDue : Nat
  deriving Repr, DecidableEq

/-- The part of `st.session_state` touched by the mistake ledger and the
per-error-tag scheduler. -/
structure ErrorState where
  mistakeLog : List (String × MistakeStats)
  mistakeNotebook : List ErrorEntry
  errorReviewQueue : List (String × List ErrorReviewItem)
  errorReviewStep : Nat
  deriving Repr, DecidableEq

/-- `ERROR_TAGS` (`src/app.py:476`). -/
def ERROR_TAGS : List (String × String) :=
  [("dependen en", "preposition"),
   ("tomar una decisión en", "preposition"),
   ("la problema", "gender agreement"),
   ("verb precision", "verb choice")]

/-- `ERROR_TAGS.get(pattern, "general")` (`src/app.py:2097`). -/
def errorTagFor (pattern : String) : String :=
  (alookup ERROR_TAGS pattern).getD "general"

/-! ### Spaced-repetition scheduler operations -/

/-- The shared pass/fail transition body (`src/app.py:2198`–`2202`):
on success `streak += 1`, on failure `streak = 0`, then
`next_due = step + 2 ** streak`. -/
def advance_item (step : Nat) (item : ReviewItem) (success : Bool) : ReviewItem :=
  let streak' := if success then item.streak + 1 else 0
  { item with streak := streak', nextDue := step + 2 ^ streak' }

/-- `update_review_item` (`src/app.py:2196`): `st.session_state.review_queue[item_id]`
raises `KeyError` when the key is absent, modelled as `none`. -/
def update_review_item (q : List (String × ReviewItem)) (step : Nat)
    (itemId : String) (success : Bool) : Option (List (String × ReviewItem)) :=
  match alookup q itemId with
  | none => none
  | some _ => some (amodify (fun it => advance_item step it success) q itemId)

/-- `update_grammar_review_item` (`src/app.py:2134`). -/
def update_grammar_review_item (q : List (String × GrammarItem)) (step : Nat)
    (itemId : String) (success : Bool) : Option (List (String × GrammarItem)) :=
  match alookup q itemId with
  | none => none
  | some _ =>
    some (amodify (fun it =>
      let streak' := if success then it.streak + 1 else 0
      { it with streak := streak', nextDue := step + 2 ^ streak' }) q itemId)

/-- `update_error_review_item` (`src/app.py:2079`): indexing a missing tag
raises `KeyError`, an out-of-range index raises `IndexError`; both `none`. -/
def update_error_review_item (s : ErrorState) (tag : String) (index : Nat)
    (success : Bool) : Option ErrorState :=
  match alookup s.errorReviewQueue tag with
  | none => none
  | some items =>
    match items.get? index with
    | none => none
    | some item =>
      let streak' := if success then item.streak + 1 else 0
      let item' : ErrorReviewItem :=
        ⟨item.entry, streak', s.errorReviewStep + 2 ^ streak'⟩
      let q' := amodify (fun l => l.set index item') s.errorReviewQueue tag
      some { s with errorReviewQueue := q' }

/-- `add_error_review_item` (`src/app.py:2069`): unguarded append into the
tag's list (created empty on first use). -/
def add_error_review_item (q : List (String × List ErrorReviewItem))
    (step : Nat) (tag : String) (entry : ErrorEntry) :
    List (String × List ErrorReviewItem) :=
  aupsert q tag [] (fun items => items ++ [⟨entry, 0, step⟩])

/-- `log_mistake` (`src/app.py:2088`): bump the aggregate count (creating the
record with `count=0` first when absent), append a notebook entry, and enqueue
a fresh review item under the pattern's tag.  `today` stands for
`date.today().isoformat()` and `confidence` for `random.uniform(0.6, 0.95)`. -/
def log_mistake (s : ErrorState) (pattern correction : String)
    (userText correctedText : Option String) (today : String)
    (confidence : ℚ) : ErrorState :=
  let log0 :=
    match alookup s.mistakeLog pattern with
    | none => s.mistakeLog ++ [(pattern, ⟨correction, 0⟩)]
    | some _ => s.mistakeLog
  let log1 := amodify (fun m => { m with count := m.count + 1 }) log0 pattern
  let entry : ErrorEntry :=
    ⟨today, pattern, correction, errorTagFor pattern, confidence,
     userText, correctedText⟩
  { s with
    mistakeLog := log1
    mistakeNotebook := s.mistakeNotebook ++ [entry]
    errorReviewQueue :=
      add_error_review_item s.errorReviewQueue s.errorReviewStep entry.tag entry }

/-- Input record for `add_review_items` (a vocabulary lexicon entry). -/
structure VocabInput where
  term : String
  meaning : String
  exampleText : String
  domain : Option String
  register : Option String
  pos : Option String
  deriving Repr, DecidableEq

/-- `record_domain_exposure` (`src/app.py:2107`). -/
def record_domain_exposure (exposure : List (String × Nat)) (domain : String) :
    List (String × Nat) :=
  aupsert exposure domain 0 (· + 1)

/-- `add_review_items` (`src/app.py:2050`): guarded insert keyed by term,
with a fresh item at `streak=0`, `next_due=0`; records domain exposure when
the item carries a truthy domain (the external `save_vocab_item` write is out
of scope). -/
def add_review_items (q : List (String × ReviewItem))
    (exposure : List (String × Nat)) :
    List VocabInput → List (String × ReviewItem) × List (String × Nat)
  | [] => (q, exposure)
  | item :: rest =>
    if (alookup q item.term).isSome then add_review_items q exposure rest
    else
      add_review_items
        (q ++ [(item.term,
          ⟨item.term, item.meaning, item.exampleText, item.domain,
           item.register, item.pos, 0, 0⟩)])
        (match item.domain with
         | some d => if d = "" then exposure else record_domain_exposure exposure d
         | none => exposure)
        rest

/-- `add_grammar_review_item` (`src/app.py:2123`): guarded insert keyed by
`item_id`, new items start at `streak=0`, `next_due=0`. -/
def add_grammar_review_item (q : List (String × GrammarItem))
    (itemId focus explanation exampleText : String) :
    List (String × GrammarItem) :=
  if (alookup q itemId).isSome then q
  else q ++ [(itemId, ⟨focus, explanation, exampleText, 0, 0⟩)]

/-! ### Due-items queries (each increments the queue's step first) -/

/-- Vocabulary due query of `render_review_hub` (`src/app.py:2670`–`2674`):
`review_step += 1`, then keep the items with `next_due <= review_step`. -/
def due_vocab_items (q : List (String × ReviewItem)) (step : Nat) :
    Nat × List ReviewItem :=
  let step' := step + 1
  (step', (q.map Prod.snd).filter (fun it => it.nextDue ≤ step'))

/-- Grammar due query of `render_review_hub` (`src/app.py:2692`–`2696`). -/
def due_grammar_items (q : List (String × GrammarItem)) (step : Nat) :
    Nat × List GrammarItem :=
  let step' := step + 1
  (step', (q.map Prod.snd).filter (fun it => it.nextDue ≤ step'))

/-- Error-tag due query of `render_error_notebook` (`src/app.py:2635`–`2640`):
`error_review_step += 1`, then the `enumerate`d items of the tag's queue with
`next_due <= error_review_step`. -/
def due_error_items (s : ErrorState) (tag : String) :
    ErrorState × List (Nat × ErrorReviewItem) :=
  let step' := s.errorReviewStep + 1
  let q := (alookup s.errorReviewQueue tag).getD []
  ({ s with errorReviewStep := step' },
   q.enum.filter (fun p => p.2.nextDue ≤ step'))

/-- `N` consecutive successful reviews (`advance_item` with `success=True`),
with the queue step held fixed, starting from a given item. -/
def advanceN (step : Nat) (item : ReviewItem) : Nat → ReviewItem
  | 0 => item
  | n + 1 => advance_item step (advanceN step item n) true

/-! ### Heuristic text matcher (`render_tiny_mistake_catcher`,
`render_daily_missions`) -/

/-- One `COMMON_MISTAKES` record (`src/app.py:725`). -/
structure Mistake where
  pattern : String
  correction : String
  explanation : String
  examples : List String
  deriving Repr, DecidableEq

/-- `COMMON_MISTAKES` (`src/app.py:725`–`747`). -/
def COMMON_MISTAKES : List Mistake :=
  [⟨"dependen en", "dependen de", "El verbo depender siempre va con de.",
    ["Depende de la aprobación.", "Dependemos de su respuesta."]⟩,
   ⟨"tomar una decisión en", "tomar una decisión sobre",
    "En español, tomar una decisión sobre un tema es más natural.",
    ["Tomamos una decisión sobre el presupuesto.",
     "Tomó una decisión sobre el contrato."]⟩,
   ⟨"la problema", "el problema", "Problema es masculino pese a terminar en -a.",
    ["El problema fue resuelto.", "El problema persiste."]⟩]

/-- The matching loop shared by `render_tiny_mistake_catcher`
(`src/app.py:2531`–`2533`) and `render_daily_missions` (`src/app.py:2588`–`2591`):
keep the records whose `pattern` occurs verbatim in the lowercased draft. -/
def matchMistakes (patterns : List Mistake) (text : String) : List Mistake :=
  patterns.filter (fun m => strHasSubstr (pyLower text) m.pattern)

/-- The hard-coded extra correction of `render_tiny_mistake_catcher`
(`src/app.py:2534`–`2542`). -/
def serListoMistake : Mistake :=
  ⟨"ser listo", "estar listo", "Estados temporales requieren estar.",
   ["El plan está listo.", "La sala está lista."]⟩

/-- Trigger for the extra correction: `"ser" in draft.lower() and
"listo" in draft.lower() and "está" not in draft.lower()`. -/
def serListoTriggered (draft : String) : Bool :=
  strHasSubstr (pyLower draft) "ser" && strHasSubstr (pyLower draft) "listo"
    && !(strHasSubstr (pyLower draft) "está")

/-- The `Check sentence` branch of `render_tiny_mistake_catcher`
(`src/app.py:2529`–`2553`): collect matches, then call `log_mistake` once per
match (the corrected text is `draft.replace(pattern, correction)`). -/
def render_tiny_mistake_catcher (s : ErrorState) (draft : String)
    (today : String) (confidence : ℚ) : ErrorState × List Mistake :=
  let base := matchMistakes COMMON_MISTAKES draft
  let corrections :=
    if serListoTriggered draft then base ++ [serListoMistake] else base
  (corrections.foldl
    (fun st m =>
      log_mistake st m.pattern m.correction (some draft)
        (some (draft.replace m.pattern m.correction)) today confidence)
    s,
   corrections)

/-- Python truthiness of `response.strip()`: the text has at least one
non-whitespace character. -/
def hasContent (s : String) : Bool := s.data.any (fun c => !c.isWhitespace)

/-- The `Submit mission` branch of `render_daily_missions`
(`src/app.py:2585`–`2591`): nothing happens on a blank response; otherwise
each matching common mistake is logged (no corrected text passed). -/
def render_daily_missions_submit (s : ErrorState) (response : String)
    (today : String) (confidence : ℚ) : ErrorState × List Mistake :=
  if hasContent response = false then (s, [])
  else
    let feedback := matchMistakes COMMON_MISTAKES response
    (feedback.foldl
      (fun st m =>
        log_mistake st m.pattern m.correction (some response) none
          today confidence)
      s,
     feedback)

/-! ### Constraint checker (`analyze_constraints`, `src/app.py:1689`) -/

/-- The concessive marker list (`src/app.py:1692`). -/
def concessives : List String := ["aunque", "si bien", "a pesar de", "no obstante"]

/-- The softener marker list (`src/app.py:1693`). -/
def softeners : List String := ["quizá", "tal vez", "me parece", "podría"]

/-- The redirecting marker list (`src/app.py:1694`). -/
def redirectMarkers : List String :=
  ["en todo caso", "de todos modos", "en cualquier caso"]

/-- `sum(phrase in lowered for phrase in markers)`: how many of the (distinct)
markers occur in the lowered response. -/
def countPresent (markers : List String) (lowered : String) : Nat :=
  (markers.filter (fun p => strHasSubstr lowered p)).length

/-- The per-constraint branch of `analyze_constraints` (`src/app.py:1697`–`1708`):
category keywords are looked for in the lowercased constraint text (except the
calque branch, which tests the raw text), unknown text yields `false`. -/
def classify_constraint (lowered : String) (constraint : String) : Bool :=
  if strHasSubstr (pyLower constraint) "concessive" then
    decide (3 ≤ countPresent concessives lowered)
  else if strHasSubstr (pyLower constraint) "softeners" then
    decide (2 ≤ countPresent softeners lowered)
  else if strHasSubstr (pyLower constraint) "redirecting" then
    redirectMarkers.any (fun p => strHasSubstr lowered p)
  else if strHasSubstr (pyLower constraint) "formal usted" then
    strHasSubstr lowered "usted" || strHasSubstr lowered "su "
  else if strHasSubstr constraint "Avoid English-like calques" then
    !(strHasSubstr lowered "aplicar para")
  else false

/-- `analyze_constraints` (`src/app.py:1689`): build the verdict dict
`results[constraint] = <branch>` over the lowered response. -/
def analyze_constraints (response : String) (constraints : List String) :
    List (String × Bool) :=
  let lowered := pyLower response
  constraints.foldl
    (fun results c => aset results c (classify_constraint lowered c)) []

/-! ### Domain exposure tracker -/

/-- The `domain` fields of `TOPIC_DIVERSITY_DOMAINS` (`src/app.py:205`);
the other fields of each record (register, sample, keywords, lexicon) are
payload never read by the tracker. -/
def TOPIC_DIVERSITY_DOMAINS : List String :=
  ["Healthcare", "Housing", "Relationships", "Travel problems",
   "Workplace conflict", "Finance", "Cooking", "Emotions", "Bureaucracy",
   "Everyday slang-light"]

/-- The seeding of `st.session_state.domain_exposure` in `init_state`
(`src/app.py:1150`–`1151`): every known domain at count 0. -/
def init_domain_exposure : List (String × Nat) :=
  TOPIC_DIVERSITY_DOMAINS.map (fun d => (d, 0))

/-- `domain_coverage_share` (`src/app.py:2111`): `total = sum(values) or 1`,
then `count / total` per domain, in `ℚ`. -/
def domain_coverage_share (exposure : List (String × Nat)) :
    List (String × ℚ) :=
  let total : Nat := (exposure.map Prod.snd).sum
  let denom : ℚ := if total = 0 then 1 else (total : ℚ)
  exposure.map (fun p => (p.1, (p.2 : ℚ) / denom))

/-- Python `max(shares, key=shares.get)`: first key (in insertion order)
holding the maximal value; `none` on an empty dict (`ValueError`). -/
def argmaxByVal : List (String × ℚ) → Option (String × ℚ)
  | [] => none
  | p :: rest =>
    some (rest.foldl (fun best q => if best.2 < q.2 then q else best) p)

/-- Python `min(shares, key=shares.get)`: first key holding the minimal
value; `none` on an empty dict. -/
def argminByVal : List (String × ℚ) → Option (String × ℚ)
  | [] => none
  | p :: rest =>
    some (rest.foldl (fun best q => if q.2 < best.2 then q else best) p)

/-- `pick_domain_pair` (`src/app.py:2116`): `(familiar, stretch)` =
(argmax, argmin) of the coverage shares. -/
def pick_domain_pair (exposure : List (String × Nat)) :
    Option (String × String) :=
  let shares := domain_coverage_share exposure
  match argmaxByVal shares, argminByVal shares with
  | some f, some st => some (f.1, st.1)
  | _, _ => none

/-! ### Association-list lemmas -/

theorem alookup_amodify_self {β : Type} (f : β → β) (l : List (String × β))
    (key : String) : alookup (amodify f l key) key = (alookup l key).map f := by
  induction l with
  | nil => rfl
  | cons p rest ih =>
    obtain ⟨k, v⟩ := p
    by_cases h : k = key <;> simp [alookup, amodify, h, ih]

theorem alookup_amodify_ne {β : Type} (f : β → β) (l : List (String × β))
    (key key' : String) (h : key' ≠ key) :
    alookup (amodify f l key) key' = alookup l key' := by
  induction l with
  | nil => rfl
  | cons p rest ih =>
    obtain ⟨k, v⟩ := p
    by_cases hk : k = key
    · subst hk
      simp [alookup, amodify, Ne.symm h]
    · by_cases hk' : k = key' <;> simp [alookup, amodify, hk, hk', ih, h]

theorem alookup_append {β : Type} (l₁ l₂ : List (String × β)) (key : String) :
    alookup (l₁ ++ l₂) key =
      match alookup l₁ key with
      | some v => some v
      | none => alookup l₂ key := by
  induction l₁ with
  | nil => simp [alookup]
  | cons p rest ih =>
    obtain ⟨k, v⟩ := p
    by_cases h : k = key <;> simp [alookup, h, ih]

theorem alookup_aupsert_self {β : Type} (l : List (String × β)) (key : String)
    (dflt : β) (f : β → β) :
    alookup (aupsert l key dflt f) key =
      some (f ((alookup l key).getD dflt)) := by
  unfold aupsert
  cases h : alookup l key with
  | none =>
    simp only []
    rw [alookup_append, h]
    simp [alookup]
  | some v =>
    simp only []
    rw [alookup_amodify_self, h]
    rfl

theorem alookup_aupsert_ne {β : Type} (l : List (String × β)) (key key' : String)
    (dflt : β) (f : β → β) (h : key' ≠ key) :
    alookup (aupsert l key dflt f) key' = alookup l key' := by
  unfold aupsert
  cases hl : alookup l key with
  | none =>
    simp only []
    rw [alookup_append]
    cases h' : alookup l key' with
    | none => simp [alookup, h, Ne.symm h]
    | some v => rfl
  | some v =>
    simp only []
    exact alookup_amodify_ne _ _ _ _ h

theorem alookup_aset_self {β : Type} (l : List (String × β)) (key : String)
    (v : β) : alookup (aset l key v) key = some v := by
  unfold aset
  cases h : alookup l key with
  | none =>
    simp only []
    rw [alookup_append, h]
    simp [alookup]
  | some w =>
    simp only []
    rw [alookup_amodify_self, h]
    rfl

theorem alookup_aset_ne {β : Type} (l : List (String × β)) (key key' : String)
    (v : β) (h : key' ≠ key) : alookup (aset l key v) key' = alookup l key' := by
  unfold aset
  cases hl : alookup l key with
  | none =>
    simp only []
    rw [alookup_append]
    cases h' : alookup l key' with
    | none => simp [alookup, h, Ne.symm h]
    | some w => rfl
  | some w =>
    simp only []
    exact alookup_amodify_ne _ _ _ _ h

theorem alookup_isSome_of_mem_fst {β : Type} (l : List (String × β))
    (key : String) (h : key ∈ l.map Prod.fst) : (alookup l key).isSome := by
  induction l with
  | nil => simp at h
  | cons p rest ih =>
    obtain ⟨k, v⟩ := p
    by_cases hk : k = key
    · simp [alookup, hk]
    · simp only [List.map_cons, List.mem_cons] at h
      rcases h with h | h
      · exact absurd h.symm hk
      · simpa [alookup, hk] using ih h

theorem amodify_map_fst {β : Type} (f : β → β) (l : List (String × β))
    (key : String) : (amodify f l key).map Prod.fst = l.map Prod.fst := by
  induction l with
  | nil => rfl
  | cons p rest ih =>
    obtain ⟨k, v⟩ := p
    by_cases h : k = key <;> simp [amodify, h, ih]

/-! ### Claim C1 -/

/-- C1 is false as the spec states it: with the vocabulary queue at step 0
holding one item with `next_due = 1`, the due query returns that item although
its `next_due` exceeds the pre-call step value 0 (the code increments the step
before filtering). -/
theorem claim_C1_counterexample :
    (due_vocab_items [("x", ⟨"x", "m", "e", none, none, none, 0, 1⟩)] 0).2 =
      [⟨"x", "m", "e", none, none, none, 0, 1⟩] ∧
    ¬ ((⟨"x", "m", "e", none, none, none, 0, 1⟩ : ReviewItem).nextDue ≤ 0) := by
  constructor
  · rfl
  · decide

/-- C1 (amended): for every queue (vocabulary, grammar, or error-tag), the
due-items query increments the queue's step by exactly 1 and returns exactly
the items whose `next_due` is `≤ step + 1`, i.e. `≤` the step value *after*
the increment, not before it. -/
theorem claim_C1 (q : List (String × ReviewItem)) (gq : List (String × GrammarItem))
    (s : ErrorState) (tag : String) (step gstep : Nat) :
    (due_vocab_items q step).1 = step + 1 ∧
    (∀ it : ReviewItem, it ∈ (due_vocab_items q step).2 ↔
        it ∈ q.map Prod.snd ∧ it.nextDue ≤ step + 1) ∧
    (due_grammar_items gq gstep).1 = gstep + 1 ∧
    (∀ it : GrammarItem, it ∈ (due_grammar_items gq gstep).2 ↔
        it ∈ gq.map Prod.snd ∧ it.nextDue ≤ gstep + 1) ∧
    (due_error_items s tag).1.errorReviewStep = s.errorReviewStep + 1 ∧
    (due_error_items s tag).1.errorReviewQueue = s.errorReviewQueue ∧
    (∀ p : Nat × ErrorReviewItem, p ∈ (due_error_items s tag).2 ↔
        p ∈ ((alookup s.errorReviewQueue tag).getD []).enum ∧
          p.2.nextDue ≤ s.errorReviewStep + 1) := by
  refine ⟨rfl, ?_, rfl, ?_, rfl, rfl, ?_⟩ <;>
    intro it <;> simp [due_vocab_items, due_grammar_items, due_error_items,
      List.mem_filter]

/-! ### Claim C2 -/

/-- C2: the pass/fail transition, for the vocabulary, grammar, and error-tag
update operations alike: success increments the streak, failure zeroes it,
and `next_due` becomes `step + 2 ^ new_streak`; in particular failure always
yields `next_due = step + 1`, and success at streak 2 yields streak 3 and
`next_due = step + 8`. -/
theorem claim_C2 (q : List (String × ReviewItem)) (gq : List (String × GrammarItem))
    (s : ErrorState) (step gstep : Nat) (itemId gid tag : String) (index : Nat)
    (success : Bool) (item : ReviewItem) (gitem : GrammarItem)
    (eitems : List ErrorReviewItem) (eitem : ErrorReviewItem) :
    (alookup q itemId = some item →
      ∃ q', update_review_item q step itemId success = some q' ∧
        ∃ item', alookup q' itemId = some item' ∧
          item'.streak = (if success then item.streak + 1 else 0) ∧
          item'.nextDue = step + 2 ^ item'.streak ∧
          (success = false → item'.nextDue = step + 1) ∧
          (success = true → item.streak = 2 →
            item'.streak = 3 ∧ item'.nextDue = step + 8)) ∧
    (alookup gq gid = some gitem →
      ∃ gq', update_grammar_review_item gq gstep gid success = some gq' ∧
        ∃ gitem', alookup gq' gid = some gitem' ∧
          gitem'.streak = (if success then gitem.streak + 1 else 0) ∧
          gitem'.nextDue = gstep + 2 ^ gitem'.streak ∧
          (success = false → gitem'.nextDue = gstep + 1)) ∧
    (alookup s.errorReviewQueue tag = some eitems →
      eitems.get? index = some eitem →
      ∃ s', update_error_review_item s tag index success = some s' ∧
        ∃ eitem', ((alookup s'.errorReviewQueue tag).getD []).get? index =
            some eitem' ∧
          eitem'.streak = (if success then eitem.streak + 1 else 0) ∧
          eitem'.nextDue = s.errorReviewStep + 2 ^ eitem'.streak ∧
          (success = false → eitem'.nextDue = s.errorReviewStep + 1)) := by
  refine ⟨?_, ?_, ?_⟩
  · intro h
    refine ⟨amodify (fun it => advance_item step it success) q itemId, ?_, ?_⟩
    · unfold update_review_item
      rw [h]
    refine ⟨advance_item step item success, ?_, ?_, ?_, ?_, ?_⟩
    · rw [alookup_amodify_self, h]; rfl
    · cases success <;> simp [advance_item]
    · cases success <;> simp [advance_item]
    · intro hs; subst hs; simp [advance_item]
    · intro hs hstreak; subst hs; simp [advance_item, hstreak]
  · intro h
    refine ⟨amodify (fun it =>
        let streak' := if success then it.streak + 1 else 0
        { it with streak := streak', nextDue := gstep + 2 ^ streak' }) gq gid,
      ?_, ?_⟩
    · unfold update_grammar_review_item
      rw [h]
    refine ⟨⟨gitem.focus, gitem.explanation, gitem.exampleText,
      if success then gitem.streak + 1 else 0,
      gstep + 2 ^ (if success then gitem.streak + 1 else 0)⟩, ?_, rfl, rfl, ?_⟩
    · rw [alookup_amodify_self, h]
      cases gitem
      rfl
    · intro hs; subst hs; simp
  · intro h hidx
    have hlen : index < eitems.length := by
      rcases List.get?_eq_some.mp hidx with ⟨hl, _⟩
      exact hl
    refine ⟨⟨s.mistakeLog, s.mistakeNotebook,
      amodify (fun l => l.set index
        ⟨eitem.entry, if success then eitem.streak + 1 else 0,
         s.errorReviewStep + 2 ^ (if success then eitem.streak + 1 else 0)⟩)
        s.errorReviewQueue tag,
      s.errorReviewStep⟩, ?_, ?_⟩
    · unfold update_error_review_item
      simp only [h, hidx]
    refine ⟨⟨eitem.entry, if success then eitem.streak + 1 else 0,
      s.errorReviewStep + 2 ^ (if success then eitem.streak + 1 else 0)⟩,
      ?_, rfl, rfl, ?_⟩
    · show ((alookup (amodify _ s.errorReviewQueue tag) tag).getD []).get? index
        = _
      rw [alookup_amodify_self, h]
      show (eitems.set index _).get? index = _
      rw [List.get?_eq_getElem?]
      exact List.getElem?_set_eq_of_lt _ hlen
    · intro hs; subst hs; simp

theorem alookup_eq_none_iff {β : Type} (l : List (String × β)) (key : String) :
    alookup l key = none ↔ key ∉ l.map Prod.fst := by
  induction l with
  | nil => simp [alookup]
  | cons p rest ih =>
    obtain ⟨k, v⟩ := p
    by_cases h : k = key
    · subst h; simp [alookup]
    · simp only [alookup, List.map_cons, List.mem_cons, if_neg h]
      rw [ih]
      constructor
      · intro hn hmem
        rcases hmem with hmem | hmem
        · exact h hmem.symm
        · exact hn hmem
      · intro hn hmem
        exact hn (Or.inr hmem)

/-! ### Claim C2 witness -/

/-- Witness for C2 at a concrete queue: term `"x"` with streak 2, advanced
with success at step 5, reaches streak 3 and `next_due = 13`. -/
theorem claim_C2_witness :
    ∃ q', update_review_item
        [("x", ⟨"x", "m", "e", none, none, none, 2, 0⟩)] 5 "x" true = some q' ∧
      ∃ item', alookup q' "x" = some item' ∧
        item'.streak = 3 ∧
        item'.nextDue = 5 + 2 ^ item'.streak ∧
        (true = false → item'.nextDue = 5 + 1) ∧
        (true = true → 2 = 2 → item'.streak = 3 ∧ item'.nextDue = 5 + 8) :=
  (claim_C2 [("x", ⟨"x", "m", "e", none, none, none, 2, 0⟩)] [] ⟨[], [], [], 0⟩
    5 0 "x" "g" "t" 0 true ⟨"x", "m", "e", none, none, none, 2, 0⟩
    ⟨"f", "ex", "e", 0, 0⟩ [] ⟨⟨"d", "p", "c", "t", 1, none, none⟩, 0, 0⟩).1 rfl

/-! ### Claim C3 -/

/-- C3 is false as stated: logging the mistake `"dependen en"` twice puts two
review items with the same key (the pattern) into the same `"preposition"`
queue, because `add_error_review_item` appends unconditionally. -/
theorem claim_C3_counterexample :
    ((alookup (log_mistake
        (log_mistake ⟨[], [], [], 0⟩ "dependen en" "dependen de" none none
          "2026-10-12" (7/10))
        "dependen en" "dependen de" none none "2026-10-12" (7/10)).errorReviewQueue
      "preposition").getD []).map (fun it => it.entry.pattern) =
      ["dependen en", "dependen en"] := by
  rfl

/-- C3 (amended): the vocabulary and grammar queues never acquire two items
with the same key (their insert operations are guarded by a membership test),
but the per-error-tag queues do not deduplicate: every `log_mistake` call
appends one more item to the pattern's tag queue, so logging the same pattern
twice yields two items with the same key there. -/
theorem claim_C3 :
    (∀ (items : List VocabInput) (q : List (String × ReviewItem))
        (exposure : List (String × Nat)),
      (q.map Prod.fst).Nodup →
        (((add_review_items q exposure items).1).map Prod.fst).Nodup) ∧
    (∀ (gq : List (String × GrammarItem)) (itemId focus explanation ex : String),
      (gq.map Prod.fst).Nodup →
        ((add_grammar_review_item gq itemId focus explanation ex).map
          Prod.fst).Nodup) ∧
    (∀ (s : ErrorState) (pattern correction : String) (ut ct : Option String)
        (today : String) (conf : ℚ),
      ((alookup (log_mistake s pattern correction ut ct today
            conf).errorReviewQueue (errorTagFor pattern)).getD []).length =
        ((alookup s.errorReviewQueue (errorTagFor pattern)).getD []).length
          + 1) := by
  refine ⟨?_, ?_, ?_⟩
  · intro items
    induction items with
    | nil => intro q e h; exact h
    | cons item rest ih =>
      intro q e h
      show ((if (alookup q item.term).isSome then add_review_items q e rest
        else _).1.map Prod.fst).Nodup
      by_cases hq : (alookup q item.term).isSome
      · simpa [hq] using ih q e h
      · simp only [hq, if_false]
        apply ih
        have hterm : item.term ∉ q.map Prod.fst :=
          (alookup_eq_none_iff q item.term).mp
            (Option.not_isSome_iff_eq_none.mp hq)
        simp [List.nodup_append, h, hterm]
  · intro gq itemId focus explanation ex h
    unfold add_grammar_review_item
    by_cases hq : (alookup gq itemId).isSome
    · simpa [hq] using h
    · have hid : itemId ∉ gq.map Prod.fst :=
        (alookup_eq_none_iff gq itemId).mp (Option.not_isSome_iff_eq_none.mp hq)
      simp [hq, List.nodup_append, h, hid]
  · intro s pattern correction ut ct today conf
    show ((alookup (add_error_review_item s.errorReviewQueue s.errorReviewStep
      (errorTagFor pattern) _) (errorTagFor pattern)).getD []).length = _
    unfold add_error_review_item
    rw [alookup_aupsert_self]
    cases alookup s.errorReviewQueue (errorTagFor pattern) <;> simp

/-- Witness for C3: adding the same vocabulary item twice to an empty queue
leaves the key list duplicate-free. -/
theorem claim_C3_witness :
    (((add_review_items [] []
        [⟨"casa", "house", "e", none, none, none⟩,
         ⟨"casa", "house", "e", none, none, none⟩]).1).map Prod.fst).Nodup :=
  claim_C3.1 [⟨"casa", "house", "e", none, none, none⟩,
    ⟨"casa", "house", "e", none, none, none⟩] [] [] List.nodup_nil

/-! ### Claim C8 -/

/-- C8: pass/fail feedback for a key that is not in the target queue fails
loudly — `update_review_item`, `update_grammar_review_item`, and
`update_error_review_item` (missing tag, or index past the end of the tag's
list) all evaluate to `none` (a raised `KeyError`/`IndexError`), creating or
modifying nothing. -/
theorem claim_C8 :
    (∀ (q : List (String × ReviewItem)) step itemId success,
      alookup q itemId = none → update_review_item q step itemId success = none) ∧
    (∀ (gq : List (String × GrammarItem)) gstep gid success,
      alookup gq gid = none →
        update_grammar_review_item gq gstep gid success = none) ∧
    (∀ (s : ErrorState) tag index success,
      alookup s.errorReviewQueue tag = none →
        update_error_review_item s tag index success = none) ∧
    (∀ (s : ErrorState) tag index success items,
      alookup s.errorReviewQueue tag = some items → items.length ≤ index →
        update_error_review_item s tag index success = none) := by
  refine ⟨?_, ?_, ?_, ?_⟩
  · intro q step itemId success h
    unfold update_review_item
    rw [h]
  · intro gq gstep gid success h
    unfold update_grammar_review_item
    rw [h]
  · intro s tag index success h
    unfold update_error_review_item
    rw [h]
  · intro s tag index success items h hlen
    unfold update_error_review_item
    simp only [h]
    rw [List.get?_eq_none.mpr hlen]

/-- Witness for C8: feedback on the empty vocabulary queue is an error. -/
theorem claim_C8_witness : update_review_item [] 0 "casa" true = none :=
  claim_C8.1 [] 0 "casa" true rfl

/-! ### Claim C9 -/

theorem advanceN_streak (step : Nat) (item : ReviewItem) :
    ∀ n, (advanceN step item n).streak = item.streak + n := by
  intro n
  induction n with
  | zero => rfl
  | succ n ih => simp [advanceN, advance_item, ih]; ring

/-- C9: from `streak = 0`, after `N ≥ 1` successful advances (queue step held
fixed) the streak is `N` and `next_due = step + 2 ^ N`, which is strictly
increasing in `N`. -/
theorem claim_C9 (step : Nat) (item : ReviewItem) (h : item.streak = 0) :
    (∀ N, (advanceN step item N).streak = N) ∧
    (∀ N, 0 < N → (advanceN step item N).nextDue = step + 2 ^ N) ∧
    (∀ N M, 0 < N → N < M →
      (advanceN step item N).nextDue < (advanceN step item M).nextDue) := by
  have hstreak : ∀ N, (advanceN step item N).streak = N := by
    intro N
    rw [advanceN_streak, h, Nat.zero_add]
  have hdue : ∀ N, 0 < N → (advanceN step item N).nextDue = step + 2 ^ N := by
    intro N hN
    cases N with
    | zero => exact absurd hN (by decide)
    | succ n =>
      show (advance_item step (advanceN step item n) true).nextDue = _
      simp [advance_item, hstreak n]
  refine ⟨hstreak, hdue, ?_⟩
  intro N M hN hNM
  rw [hdue N hN, hdue M (hN.trans hNM)]
  exact Nat.add_lt_add_left (Nat.pow_lt_pow_right Nat.one_lt_two hNM) step

/-- Witness for C9: three successful advances at step 5 of a fresh item give
`next_due = 5 + 8`. -/
theorem claim_C9_witness :
    (advanceN 5 ⟨"x", "m", "e", none, none, none, 0, 0⟩ 3).nextDue = 5 + 2 ^ 3 :=
  (claim_C9 5 ⟨"x", "m", "e", none, none, none, 0, 0⟩ rfl).2.1 3 (by decide)

/-! ### Claim C4 -/

/-- C4: `log_mistake` always succeeds and has exactly the stated effects —
the aggregate count for the pattern goes up by one (created first when
absent, so the first log yields count 1, other patterns untouched), exactly
one detailed entry is appended to the notebook, and one fresh review item
with `streak = 0` and `next_due` equal to the error queue's current step is
appended to the queue of the pattern's tag (other tag queues and the step
itself untouched); the tag of `"dependen en"` is `"preposition"`. -/
theorem claim_C4 (s : ErrorState) (pattern correction : String)
    (ut ct : Option String) (today : String) (conf : ℚ) :
    (alookup (log_mistake s pattern correction ut ct today conf).mistakeLog
        pattern =
      some ⟨(alookup s.mistakeLog pattern).elim correction MistakeStats.correction,
            (alookup s.mistakeLog pattern).elim 0 MistakeStats.count + 1⟩) ∧
    (∀ p', p' ≠ pattern →
      alookup (log_mistake s pattern correction ut ct today conf).mistakeLog p' =
        alookup s.mistakeLog p') ∧
    ((log_mistake s pattern correction ut ct today conf).mistakeNotebook =
      s.mistakeNotebook ++
        [⟨today, pattern, correction, errorTagFor pattern, conf, ut, ct⟩]) ∧
    ((alookup (log_mistake s pattern correction ut ct today
          conf).errorReviewQueue (errorTagFor pattern)).getD [] =
      (alookup s.errorReviewQueue (errorTagFor pattern)).getD [] ++
        [⟨⟨today, pattern, correction, errorTagFor pattern, conf, ut, ct⟩, 0,
          s.errorReviewStep⟩]) ∧
    (∀ t, t ≠ errorTagFor pattern →
      alookup (log_mistake s pattern correction ut ct today
          conf).errorReviewQueue t = alookup s.errorReviewQueue t) ∧
    ((log_mistake s pattern correction ut ct today conf).errorReviewStep =
      s.errorReviewStep) ∧
    errorTagFor "dependen en" = "preposition" := by
  refine ⟨?_, ?_, rfl, ?_, ?_, rfl, rfl⟩
  · show alookup (amodify _ _ pattern) pattern = _
    cases hp : alookup s.mistakeLog pattern with
    | none =>
      simp only [log_mistake, hp]
      rw [alookup_amodify_self, alookup_append, hp]
      simp [alookup]
    | some m =>
      simp only [log_mistake, hp]
      rw [alookup_amodify_self, hp]
      rfl
  · intro p' hne
    show alookup (amodify _ _ pattern) p' = _
    cases hp : alookup s.mistakeLog pattern with
    | none =>
      simp only [log_mistake, hp]
      rw [alookup_amodify_ne _ _ _ _ hne, alookup_append]
      cases hp' : alookup s.mistakeLog p' with
      | none => simp [alookup, hne, Ne.symm hne]
      | some m => rfl
    | some m =>
      simp only [log_mistake, hp]
      rw [alookup_amodify_ne _ _ _ _ hne]
  · show (alookup (add_error_review_item s.errorReviewQueue s.errorReviewStep
      (errorTagFor pattern) _) (errorTagFor pattern)).getD [] = _
    unfold add_error_review_item
    rw [alookup_aupsert_self]
    rfl
  · intro t ht
    show alookup (add_error_review_item s.errorReviewQueue s.errorReviewStep
      (errorTagFor pattern) _) t = _
    unfold add_error_review_item
    exact alookup_aupsert_ne _ _ _ _ _ ht

/-- Witness for C4: logging into the empty state leaves unrelated ledger
keys absent. -/
theorem claim_C4_witness :
    alookup (log_mistake ⟨[], [], [], 0⟩ "dependen en" "dependen de" none none
      "2026-10-12" (7/10)).mistakeLog "la problema" =
      alookup ([] : List (String × MistakeStats)) "la problema" :=
  (claim_C4 ⟨[], [], [], 0⟩ "dependen en" "dependen de" none none "2026-10-12"
    (7/10)).2.1 "la problema" (by decide)

/-! ### Claim C5 -/

/-- C5 is false as stated: the matcher tests the pattern *verbatim* against
the lowercased text, so the pattern `"AB"`, which does occur case-insensitively
in the text `"ab"`, is not returned. -/
theorem claim_C5_counterexample :
    matchMistakes [⟨"AB", "ab", "", []⟩] "ab" = [] ∧
    strHasSubstr (pyLower "ab") (pyLower "AB") = true := by
  exact ⟨by decide, by decide⟩

/-- C5 (amended): the matcher returns exactly the triples whose pattern
occurs verbatim as a substring of the *lowercased* text — which coincides
with case-insensitive matching precisely for patterns that are already
lowercase, as all shipped `COMMON_MISTAKES` patterns are; each pattern is
reported at most once per call regardless of repetitions inside the text;
and on empty text there are no matches and no ledger side effects (for
nonempty patterns). -/
theorem claim_C5 (patterns : List Mistake) (text : String) :
    (∀ m : Mistake, m ∈ matchMistakes patterns text ↔
        m ∈ patterns ∧ strHasSubstr (pyLower text) m.pattern = true) ∧
    (∀ m : Mistake, pyLower m.pattern = m.pattern →
        (m ∈ matchMistakes patterns text ↔
          m ∈ patterns ∧ strHasSubstr (pyLower text) (pyLower m.pattern) = true)) ∧
    COMMON_MISTAKES.all (fun m => pyLower m.pattern == m.pattern) = true ∧
    (patterns.Nodup → (matchMistakes patterns text).Nodup) ∧
    (∀ m : Mistake, (matchMistakes patterns text).count m ≤ patterns.count m) ∧
    ((∀ m ∈ patterns, m.pattern ≠ "") → matchMistakes patterns "" = []) ∧
    (∀ (s : ErrorState) (today : String) (conf : ℚ),
      render_tiny_mistake_catcher s "" today conf = (s, []) ∧
      render_daily_missions_submit s "" today conf = (s, [])) := by
  refine ⟨?_, ?_, by decide, ?_, ?_, ?_, ?_⟩
  · intro m
    simp [matchMistakes, List.mem_filter]
  · intro m hm
    rw [hm]
    simp [matchMistakes, List.mem_filter]
  · intro h
    exact h.filter _
  · intro m
    exact (List.filter_sublist _).count_le m
  · intro h
    apply List.filter_eq_nil_iff.mpr
    intro m hm hcontra
    have h1 : m.pattern.data <:+: (pyLower "").data := of_decide_eq_true hcontra
    rw [show (pyLower "").data = [] from rfl, List.infix_nil] at h1
    exact h m hm (String.ext h1)
  · intro s today conf
    have h1 : matchMistakes COMMON_MISTAKES "" = [] := by decide
    have h2 : serListoTriggered "" = false := by decide
    have h3 : hasContent "" = false := by decide
    constructor
    · simp [render_tiny_mistake_catcher, h1, h2]
    · simp [render_daily_missions_submit, h3]

/-- Witness for C5: on the shipped pattern list (all patterns nonempty),
the empty text matches nothing. -/
theorem claim_C5_witness : matchMistakes COMMON_MISTAKES "" = [] :=
  (claim_C5 COMMON_MISTAKES "x").2.2.2.2.2.1 (by decide)

/-! ### Claim C6 -/

theorem list_sum_div (l : List ℚ) (d : ℚ) :
    (l.map (· / d)).sum = l.sum / d := by
  induction l with
  | nil => simp
  | cons x xs ih => simp [ih, add_div]

theorem nat_sum_zero_mem {l : List Nat} (h : l.sum = 0) {x : Nat}
    (hx : x ∈ l) : x = 0 := by
  induction l with
  | nil => simp at hx
  | cons y ys ih =>
    rw [List.sum_cons, Nat.add_eq_zero] at h
    rcases List.mem_cons.mp hx with rfl | hx'
    · exact h.1
    · exact ih h.2 hx'

/-- C6: every returned share is `count / total`; when the total exposure is
positive the shares sum to exactly 1, and when it is 0 every share is 0
(the division is by the guard value 1, never by 0); the domains listed are
exactly the keys of the exposure map. -/
theorem claim_C6 (exposure : List (String × Nat)) :
    ((exposure.map Prod.snd).sum ≠ 0 →
      ((domain_coverage_share exposure).map Prod.snd).sum = 1) ∧
    ((exposure.map Prod.snd).sum ≠ 0 →
      ∀ p ∈ exposure,
        (p.1, (p.2 : ℚ) / (((exposure.map Prod.snd).sum : Nat) : ℚ)) ∈
          domain_coverage_share exposure) ∧
    ((exposure.map Prod.snd).sum = 0 →
      ∀ q ∈ (domain_coverage_share exposure).map Prod.snd, q = 0) ∧
    (domain_coverage_share exposure).map Prod.fst = exposure.map Prod.fst := by
  refine ⟨?_, ?_, ?_, ?_⟩
  · intro hT
    simp only [domain_coverage_share]
    rw [if_neg hT]
    have hmap : ((exposure.map (fun p =>
        (p.1, (p.2 : ℚ) / (((exposure.map Prod.snd).sum : Nat) : ℚ)))).map
          Prod.snd) =
        (exposure.map (fun p => ((p.2 : Nat) : ℚ))).map
          (· / (((exposure.map Prod.snd).sum : Nat) : ℚ)) := by
      simp [List.map_map, Function.comp]
    rw [hmap, list_sum_div]
    rw [show exposure.map (fun p => ((p.2 : Nat) : ℚ)) =
        (exposure.map Prod.snd).map (fun n => ((n : Nat) : ℚ)) by
      simp [List.map_map, Function.comp]]
    rw [← Nat.cast_list_sum]
    exact div_self (Nat.cast_ne_zero.mpr hT)
  · intro hT p hp
    simp only [domain_coverage_share]
    rw [if_neg hT]
    exact List.mem_map.mpr ⟨p, hp, rfl⟩
  · intro hT q hq
    simp only [domain_coverage_share] at hq
    rw [if_pos hT] at hq
    simp only [List.map_map, List.mem_map, Function.comp] at hq
    obtain ⟨p, hp, rfl⟩ := hq
    have hz : p.2 = 0 := nat_sum_zero_mem hT (List.mem_map_of_mem Prod.snd hp)
    simp [hz]
  · simp only [domain_coverage_share]
    rw [List.map_map]
    rfl

/-- Witness for C6: with exposure `{A:1, B:3}` the shares sum to 1. -/
theorem claim_C6_witness :
    ((domain_coverage_share [("A", 1), ("B", 3)]).map Prod.snd).sum = 1 :=
  (claim_C6 [("A", 1), ("B", 3)]).1 (by decide)

/-! ### Claim C7 -/

theorem analyze_constraints_lookup_aux (lowered : String)
    (cs : List String) :
    ∀ (acc : List (String × Bool)) (c : String),
      alookup (cs.foldl (fun r x => aset r x (classify_constraint lowered x))
        acc) c =
        if c ∈ cs then some (classify_constraint lowered c) else alookup acc c := by
  induction cs with
  | nil => intro acc c; simp
  | cons x xs ih =>
    intro acc c
    rw [List.foldl_cons, ih]
    by_cases hc : c ∈ xs
    · simp [hc]
    · by_cases hx : c = x
      · subst hx
        simp [hc, alookup_aset_self]
      · simp [hc, hx, alookup_aset_ne _ _ _ _ hx]

theorem analyze_constraints_lookup (response : String) (constraints : List String)
    (c : String) :
    alookup (analyze_constraints response constraints) c =
      if c ∈ constraints then some (classify_constraint (pyLower response) c)
      else none := by
  unfold analyze_constraints
  rw [analyze_constraints_lookup_aux]
  rfl

/-- C7: the constraint checker assigns a boolean verdict to every listed
constraint and never raises; a constraint whose text matches none of the five
category keywords gets `false`; a constraint mentioning "concessive" is
decided by "at least 3 of the 4 concessive markers present", and one
mentioning "softeners" (and not "concessive") by "at least 2 of the 4
softener markers present". -/
theorem claim_C7 (response : String) (constraints : List String) (c : String)
    (hc : c ∈ constraints) :
    (∃ b : Bool, alookup (analyze_constraints response constraints) c = some b) ∧
    (strHasSubstr (pyLower c) "concessive" = false →
     strHasSubstr (pyLower c) "softeners" = false →
     strHasSubstr (pyLower c) "redirecting" = false →
     strHasSubstr (pyLower c) "formal usted" = false →
     strHasSubstr c "Avoid English-like calques" = false →
      alookup (analyze_constraints response constraints) c = some false) ∧
    (strHasSubstr (pyLower c) "concessive" = true →
      alookup (analyze_constraints response constraints) c =
        some (decide (3 ≤ countPresent concessives (pyLower response)))) ∧
    (strHasSubstr (pyLower c) "concessive" = false →
     strHasSubstr (pyLower c) "softeners" = true →
      alookup (analyze_constraints response constraints) c =
        some (decide (2 ≤ countPresent softeners (pyLower response)))) := by
  have hl := analyze_constraints_lookup response constraints c
  rw [if_pos hc] at hl
  refine ⟨⟨_, hl⟩, ?_, ?_, ?_⟩
  · intro h1 h2 h3 h4 h5
    rw [hl]
    simp [classify_constraint, h1, h2, h3, h4, h5]
  · intro h1
    rw [hl]
    simp [classify_constraint, h1]
  · intro h1 h2
    rw [hl]
    simp [classify_constraint, h1, h2]

/-- Witness for C7: an unclassifiable constraint is reported as failed,
not raised. -/
theorem claim_C7_witness :
    alookup (analyze_constraints "x" ["mystery requirement"])
      "mystery requirement" = some false :=
  (claim_C7 "x" ["mystery requirement"] "mystery requirement"
    (by decide)).2.1 (by decide) (by decide) (by decide) (by decide) (by decide)

/-! ### Claim C10 -/

theorem foldl_argmax_const (l : List (String × ℚ)) (p : String × ℚ)
    (h : ∀ q ∈ l, q.2 = p.2) :
    l.foldl (fun best q => if best.2 < q.2 then q else best) p = p := by
  induction l with
  | nil => rfl
  | cons x xs ih =>
    have hx : x.2 = p.2 := h x (List.mem_cons_self x xs)
    rw [List.foldl_cons, if_neg (by rw [hx]; exact lt_irrefl _)]
    exact ih fun q hq => h q (List.mem_cons_of_mem x hq)

theorem foldl_argmin_const (l : List (String × ℚ)) (p : String × ℚ)
    (h : ∀ q ∈ l, q.2 = p.2) :
    l.foldl (fun best q => if q.2 < best.2 then q else best) p = p := by
  induction l with
  | nil => rfl
  | cons x xs ih =>
    have hx : x.2 = p.2 := h x (List.mem_cons_self x xs)
    rw [List.foldl_cons, if_neg (by rw [hx]; exact lt_irrefl _)]
    exact ih fun q hq => h q (List.mem_cons_of_mem x hq)

theorem domain_coverage_share_of_sum_zero (exposure : List (String × Nat))
    (hsum : (exposure.map Prod.snd).sum = 0) :
    domain_coverage_share exposure = exposure.map (fun q => (q.1, (0 : ℚ))) := by
  simp only [domain_coverage_share]
  rw [if_pos hsum]
  apply List.map_congr_left
  intro p hp
  have hz : p.2 = 0 := nat_sum_zero_mem hsum (List.mem_map_of_mem Prod.snd hp)
  simp [hz]

/-- C10: the session state seeds the exposure map with every known topic
domain at count 0, so `pick_domain_pair` is total on it; on any nonempty
exposure map the pair is defined, and when total exposure is 0 both the
familiar (argmax) and stretch (argmin) components are the *same* first-in-
insertion-order domain — for the seeded map, `("Healthcare", "Healthcare")` —
so the pair need not contain two distinct domains. -/
theorem claim_C10 :
    (∀ d ∈ TOPIC_DIVERSITY_DOMAINS, alookup init_domain_exposure d = some 0) ∧
    (∀ (exposure : List (String × Nat)) (h : exposure ≠ []),
      (pick_domain_pair exposure).isSome ∧
      ((exposure.map Prod.snd).sum = 0 →
        pick_domain_pair exposure =
          some ((exposure.head h).1, (exposure.head h).1))) ∧
    pick_domain_pair init_domain_exposure = some ("Healthcare", "Healthcare") := by
  have hmain : ∀ (exposure : List (String × Nat)) (h : exposure ≠ []),
      (pick_domain_pair exposure).isSome ∧
      ((exposure.map Prod.snd).sum = 0 →
        pick_domain_pair exposure =
          some ((exposure.head h).1, (exposure.head h).1)) := by
    intro exposure h
    match exposure, h with
    | p :: rest, h =>
      constructor
      · rfl
      · intro hsum
        unfold pick_domain_pair
        rw [domain_coverage_share_of_sum_zero _ hsum]
        simp only [List.map_cons, List.head_cons]
        simp only [argmaxByVal, argminByVal]
        rw [foldl_argmax_const _ _ (by
          intro q hq
          obtain ⟨r, _, rfl⟩ := List.mem_map.mp hq
          rfl)]
        rw [foldl_argmin_const _ _ (by
          intro q hq
          obtain ⟨r, _, rfl⟩ := List.mem_map.mp hq
          rfl)]
  refine ⟨by decide, hmain, ?_⟩
  have h2 := (hmain init_domain_exposure (by decide)).2 (by decide)
  rw [h2]
  rfl

/-- Witness for C10: with exposure `{A:5, B:1, C:1}` the familiar/stretch
pair is defined. -/
theorem claim_C10_witness :
    (pick_domain_pair [("A", 5), ("B", 1), ("C", 1)]).isSome :=
  (claim_C10.2.1 [("A", 5), ("B", 1), ("C", 1)] (by decide)).1

end SpanishApp
